import Mathlib

/-!
Verification development for the Patient360 backend core: the
medication-activity inference of `backend/services/medicationService.js`
(`filterActiveMedications`, `isMedicationActive`, `getCurrentMedications`,
`getMedicationHistory`, `checkMedicationInteractions`) and the deterministic
file-path scheme of `backend/utils/fileUpload.js`
(`FileUploadManager.generateFilePath`).

The JavaScript is shallowly embedded: strings are Lean `String`s, JS `Date`
values whose calendar fields the code reads are represented by their civil
(proleptic-Gregorian, UTC) components, instants that are only compared or
subtracted are `Int` milliseconds since the Unix epoch, and nullable values
are `Option`s.  Millisecond differences divided by 86400000 and compared to a
constant are modelled by the equivalent integer comparison (the divisor is
positive and the float error at these magnitudes cannot cross the integral
thresholds involved).
-/

/-- Milliseconds per day, the constant `1000 * 60 * 60 * 24` used by the
fallback-window computations. -/
def msPerDay : Int := 86400000

/-- ASCII lower-casing of one character; models what
`String.prototype.toLowerCase` does on the Basic-Latin range, which covers
every token the service matches (`continuous`, `ongoing`, `day`, `week`,
`month`; the Arabic tokens are case-less and are left unchanged). -/
def jsCharLower (c : Char) : Char :=
  if 'A' ≤ c ∧ c ≤ 'Z' then Char.ofNat (c.toNat + 32) else c

/-- Models `String.prototype.toLowerCase` (ASCII range). -/
def jsToLower (s : String) : String := String.mk (s.data.map jsCharLower)

/-- Substring search on character lists: `containsSub hay pat` is true iff
`pat` occurs contiguously in `hay`. -/
def containsSub : List Char → List Char → Bool
  | [], pat => pat.isEmpty
  | c :: t, pat => pat.isPrefixOf (c :: t) || containsSub t pat

/-- Models `String.prototype.includes`. -/
def jsIncludes (s pat : String) : Bool := containsSub s.data pat.data

/-- Characters matched by the regex class `\s` (the ASCII part plus NBSP,
which covers the service's inputs). -/
def jsSpace (c : Char) : Bool :=
  c = ' ' || c = '\t' || c = '\n' || c = '\r' || c = '\x0b' || c = '\x0c' ||
  c = ' '

/-- Numeric value of a digit run, as `parseInt` computes it on a string of
ASCII digits. -/
def digitsVal (l : List Char) : Nat :=
  l.foldl (fun a c => a * 10 + (c.toNat - '0'.toNat)) 0

/-- Leftmost match of the regex `(\d+)\s*(u₁|u₂|...)` against a character
list, returning `parseInt(match[1])`: the scan finds the first position where
a digit run, followed by optional whitespace, is immediately followed by one
of the unit tokens.  (Backtracking inside the digit run cannot create a match
that the full run does not have, since the units do not start with a digit,
so position-by-position scanning is equivalent to the JS engine's
leftmost-match rule.) -/
def findNumUnit (units : List (List Char)) : List Char → Option Nat
  | [] => none
  | c :: rest =>
    if c.isDigit then
      let run := c :: rest.takeWhile Char.isDigit
      let after := (rest.dropWhile Char.isDigit).dropWhile (fun x => jsSpace x)
      if units.any (fun u => u.isPrefixOf after) then some (digitsVal run)
      else findNumUnit units rest
    else findNumUnit units rest

/-- Models `duration?.match(/(\d+)\s*(يوم|day)/i)`, the days pattern of both
`filterActiveMedications` and `isMedicationActive` (the `/i` flag is modelled
by lower-casing the subject; the unit tokens are already lower case). -/
def daysMatch (duration : Option String) : Option Nat :=
  match duration with
  | none => none
  | some s => findNumUnit ["يوم".data, "day".data] (jsToLower s).data

/-- Models `duration?.match(/(\d+)\s*(أسبوع|week)/i)`, the weeks pattern of
`filterActiveMedications`. -/
def weeksMatch (duration : Option String) : Option Nat :=
  match duration with
  | none => none
  | some s => findNumUnit ["أسبوع".data, "week".data] (jsToLower s).data

/-- Models `duration?.match(/(\d+)\s*(شهر|month)/i)`, the months pattern of
`filterActiveMedications`. -/
def monthsMatch (duration : Option String) : Option Nat :=
  match duration with
  | none => none
  | some s => findNumUnit ["شهر".data, "month".data] (jsToLower s).data

/-- Days since the Unix epoch of the proleptic-Gregorian civil date
`(y, m, d)` (month `1..12`; `d` may lie outside the month and then overflows
linearly into adjacent months, exactly as ECMAScript's `MakeDay` does).
This is the standard branch-free era-based algorithm; the branches of the
usual formulation are encoded arithmetically (`(14 - m) / 12` is `1` for
January/February and `0` otherwise, `(m + 9) % 12` is the March-based month
index), valid for `m ∈ [1, 12]`. -/
def daysFromCivil (y m d : Int) : Int :=
  let y2 := y - (14 - m) / 12
  let era := y2 / 400
  let yoe := y2 - era * 400
  let doy := (153 * ((m + 9) % 12) + 2) / 5 + d - 1
  let doe := yoe * 365 + yoe / 4 - yoe / 100 + doy
  era * 146097 + doe - 719468

/-- A JS `Date` value represented by its civil (UTC) components: the data the
service reads with `getFullYear` / `getMonth` / `getDate` and rewrites with
`setDate` / `setMonth`.  `month` is 1-based (`getMonth() + 1`), `msOfDay` is
the time of day in milliseconds. -/
structure JsDate where
  year : Int
  month : Int
  day : Int
  msOfDay : Int
deriving DecidableEq, Repr

/-- The instant of a `JsDate` as epoch milliseconds (`Date.prototype.getTime`,
the value used by `<=` comparisons and subtraction on JS dates). -/
def JsDate.toMs (dt : JsDate) : Int :=
  daysFromCivil dt.year dt.month dt.day * msPerDay + dt.msOfDay

/-- Epoch milliseconds of `endDate` after
`endDate = new Date(dt); endDate.setDate(endDate.getDate() + n)`:
the day-of-month is replaced by `day + n` and `MakeDay` renormalizes. -/
def jsSetDateAdd (dt : JsDate) (n : Int) : Int :=
  daysFromCivil dt.year dt.month (dt.day + n) * msPerDay + dt.msOfDay

/-- Epoch milliseconds of `endDate` after
`endDate = new Date(dt); endDate.setMonth(endDate.getMonth() + n)`:
ECMAScript's `MakeDay` splits the 0-based month `(month - 1) + n` into a year
offset and a month by floored division, keeps the day-of-month, and lets an
out-of-range day overflow into the next month. -/
def jsSetMonthAdd (dt : JsDate) (n : Int) : Int :=
  let mm := dt.month - 1 + n
  daysFromCivil (dt.year + mm / 12) (mm % 12 + 1) dt.day * msPerDay + dt.msOfDay

/-- The always-active test of `filterActiveMedications`:
`med.duration && (med.duration.includes('مستمر') ||
med.duration.toLowerCase().includes('continuous') ||
med.duration.toLowerCase().includes('ongoing'))`. -/
def continuousCheckFilterPath (duration : Option String) : Bool :=
  match duration with
  | none => false
  | some s =>
    decide (s ≠ "") &&
      (jsIncludes s "مستمر" || jsIncludes (jsToLower s) "continuous" ||
        jsIncludes (jsToLower s) "ongoing")

/-- The always-active test of `isMedicationActive`:
`medication.duration && (medication.duration.includes('مستمر') ||
medication.duration.toLowerCase().includes('continuous'))` — note the absence
of the `'ongoing'` alternative. -/
def continuousCheckHistoryPath (duration : Option String) : Bool :=
  match duration with
  | none => false
  | some s =>
    decide (s ≠ "") &&
      (jsIncludes s "مستمر" || jsIncludes (jsToLower s) "continuous")

/-- The filter callback of `filterActiveMedications` applied to the two
fields it reads (`med.duration`, `med.visitDate`), with `now` the captured
`new Date()`: continuous ⇒ active; else days / weeks / months patterns give
an inclusive end date; else the 90-day fallback window. -/
def activeByDurationFilterPath (duration : Option String) (visitDate : JsDate)
    (now : Int) : Bool :=
  if continuousCheckFilterPath duration then true
  else
    match daysMatch duration with
    | some days => decide (now ≤ jsSetDateAdd visitDate days)
    | none =>
      match weeksMatch duration with
      | some weeks => decide (now ≤ jsSetDateAdd visitDate (weeks * 7))
      | none =>
        match monthsMatch duration with
        | some months => decide (now ≤ jsSetMonthAdd visitDate months)
        | none => decide (now - visitDate.toMs ≤ 90 * msPerDay)

/-- `isMedicationActive(medication, visitDate)` of the history path:
continuous ⇒ active; else the days pattern gives an inclusive end date; else
the 30-day fallback window.  There is no weeks or months branch here. -/
def isMedicationActive (duration : Option String) (visitDate : JsDate)
    (now : Int) : Bool :=
  if continuousCheckHistoryPath duration then true
  else
    match daysMatch duration with
    | some days => decide (now ≤ jsSetDateAdd visitDate days)
    | none => decide (now - visitDate.toMs ≤ 30 * msPerDay)

/-- An embedded prescription (`prescribedMedications` entry). -/
structure Prescription where
  medicationName : String
  dosage : String
  duration : Option String
  notes : Option String
deriving DecidableEq, Repr

/-- Resolvable person data of a doctor (`doctorId.personId`). -/
structure Person where
  firstName : String
  lastName : String
deriving DecidableEq, Repr

/-- A populated doctor reference; `personId` may fail to resolve. -/
structure DoctorRef where
  personId : Option Person
  specialization : Option String
deriving DecidableEq, Repr

/-- A completed visit as returned by the Mongo query (already restricted to
`status: 'completed'` with non-empty `prescribedMedications`, sorted by
`visitDate` descending). -/
structure Visit where
  visitId : Nat
  visitDate : JsDate
  doctorId : Option DoctorRef
  prescribedMedications : List Prescription
deriving DecidableEq, Repr

/-- A prescription enriched with visit context, as pushed by
`getCurrentMedications` / `getMedicationHistory`. -/
structure MedicationRecord where
  medicationName : String
  dosage : String
  duration : Option String
  notes : Option String
  visitId : Nat
  visitDate : JsDate
  doctorName : String
  doctorSpecialization : Option String
deriving DecidableEq, Repr

/-- The doctor display name:
`visit.doctorId?.personId ? 'د. <first> <last>' : 'غير محدد'`. -/
def doctorNameOf (doctorId : Option DoctorRef) : String :=
  match doctorId with
  | some r =>
    match r.personId with
    | some p => "د. " ++ p.firstName ++ " " ++ p.lastName
    | none => "غير محدد"
  | none => "غير محدد"

/-- The `{...med, visitId, visitDate, doctorName, doctorSpecialization}`
spread of the aggregator push. -/
def enrich (v : Visit) (med : Prescription) : MedicationRecord :=
  { medicationName := med.medicationName
    dosage := med.dosage
    duration := med.duration
    notes := med.notes
    visitId := v.visitId
    visitDate := v.visitDate
    doctorName := doctorNameOf v.doctorId
    doctorSpecialization := v.doctorId.bind (fun r => r.specialization) }

/-- The `allMedications` accumulation of `getCurrentMedications`: every
prescription of every visit, in visit order then prescription order. -/
def collectAllMedications (visits : List Visit) : List MedicationRecord :=
  visits.flatMap (fun v => v.prescribedMedications.map (enrich v))

/-- `filterActiveMedications(medications)` with `now` the captured
`new Date()` instant. -/
def filterActiveMedications (medications : List MedicationRecord) (now : Int) :
    List MedicationRecord :=
  medications.filter
    (fun med => activeByDurationFilterPath med.duration med.visitDate now)

/-- Core of `getCurrentMedications`: the active subset of all collected
medications (`visits` models the query result for the patient). -/
def getCurrentMedicationsCore (visits : List Visit) (now : Int) :
    List MedicationRecord :=
  filterActiveMedications (collectAllMedications visits) now

/-- A history entry: a medication record stamped with `isActive`. -/
structure HistoryRecord extends MedicationRecord where
  isActive : Bool
deriving DecidableEq, Repr

/-- The per-record name filter of `getMedicationHistory`:
`if (medicationName && !med.medicationName.includes(medicationName)) return;`
(`medicationName` absent or empty is falsy and lets everything through). -/
def historyNameFilter (q : Option String) (med : Prescription) : Bool :=
  match q with
  | none => true
  | some s => decide (s = "") || jsIncludes med.medicationName s

/-- Core of `getMedicationHistory` (before pagination and statistics): every
prescription of every visit that passes the name filter, enriched and stamped
with `isActive` computed by `isMedicationActive` at the visit date. -/
def getMedicationHistoryCore (visits : List Visit) (q : Option String)
    (now : Int) : List HistoryRecord :=
  visits.flatMap (fun v =>
    (v.prescribedMedications.filter (historyNameFilter q)).map (fun med =>
      { toMedicationRecord := enrich v med
        isActive := isMedicationActive med.duration v.visitDate now }))

/-- A warning produced by `checkMedicationInteractions`; the `medications`
and `count` payload fields are present only on some warning types, which the
`Option`s model. -/
structure InteractionWarning where
  type : String
  severity : String
  message : String
  medications : Option (List String)
  count : Option Nat
deriving DecidableEq, Repr

/-- Result shape of `checkMedicationInteractions`; `medicationCount := none`
models the absence of the `medicationCount` field in the early return. -/
structure InteractionsResult where
  success : Bool
  interactions : List String
  warnings : List InteractionWarning
  medicationCount : Option Nat
deriving DecidableEq, Repr

/-- Models `Array.prototype.indexOf`: the first index holding `a`.  (JS
returns `-1` when `a` is absent; the duplicate extraction below only ever
queries values taken from the array itself, where the two conventions
agree, so the out-of-range result is irrelevant and kept as `0`.) -/
def jsIndexOf : List String → String → Nat
  | [], _ => 0
  | b :: t, a => if b = a then 0 else jsIndexOf t a + 1

/-- The duplicate extraction
`medicationNames.filter((name, index) => medicationNames.indexOf(name) !== index)`:
every occurrence whose index is not the first index of its value. -/
def duplicatesOf (names : List String) : List String :=
  (names.enum.filter (fun p => jsIndexOf names p.2 != p.1)).map Prod.snd

/-- Message of the `DUPLICATE` warning. -/
def duplicateMessage : String := "تم وصف نفس الدواء من قبل أكثر من طبيب"

/-- Message of the `POLYPHARMACY` warning, with the count embedded. -/
def polypharmacyMessage (n : Nat) : String :=
  "تتناول " ++ toString n ++ " أدوية حالياً. يُنصح بمراجعة الطبيب لمراجعة الأدوية"

/-- The `DUPLICATE` warning object. -/
def duplicateWarning (dups : List String) : InteractionWarning :=
  { type := "DUPLICATE"
    severity := "medium"
    message := duplicateMessage
    medications := some dups
    count := none }

/-- The `POLYPHARMACY` warning object. -/
def polypharmacyWarning (n : Nat) : InteractionWarning :=
  { type := "POLYPHARMACY"
    severity := "low"
    message := polypharmacyMessage n
    medications := none
    count := some n }

/-- `checkMedicationInteractions`, taking the outcome of the underlying
`getCurrentMedications` call: `none` models `{success: false, ...}` (the
failure result carries no `medications` field), `some meds` models
`{success: true, medications: meds}`.  The guard
`!result.success || result.medications.length === 0` produces the early
return without a `medicationCount` field; otherwise the duplicate rule and
the polypharmacy rule (threshold 5) push their warnings in that order. -/
def checkMedicationInteractions (result : Option (List MedicationRecord)) :
    InteractionsResult :=
  match result with
  | none =>
    { success := true, interactions := [], warnings := [],
      medicationCount := none }
  | some meds =>
    if meds.isEmpty then
      { success := true, interactions := [], warnings := [],
        medicationCount := none }
    else
      let medicationNames := meds.map (fun m => jsToLower m.medicationName)
      let duplicates := duplicatesOf medicationNames
      let withDup :=
        if duplicates.isEmpty then ([] : List InteractionWarning)
        else [duplicateWarning duplicates]
      let warnings :=
        if 5 ≤ meds.length then withDup ++ [polypharmacyWarning meds.length]
        else withDup
      { success := true, interactions := [], warnings := warnings,
        medicationCount := some meds.length }

/-- A medication record with the given name and neutral remaining fields,
used by concrete instantiations. -/
def namedMed (name : String) : MedicationRecord :=
  { medicationName := name
    dosage := ""
    duration := none
    notes := none
    visitId := 0
    visitDate := ⟨2024, 1, 1, 0⟩
    doctorName := ""
    doctorSpecialization := none }

/-- Result of `FileUploadManager.generateFilePath`. -/
structure FilePathDescriptor where
  fullPath : String
  relativePath : String
  filename : String
  directory : String
deriving DecidableEq, Repr

/-- Models `String(x).padStart(2, '0')` applied to a rendered number. -/
def jsPadTwoZero (s : String) : String :=
  if s.length < 2 then String.mk (List.replicate (2 - s.length) '0') ++ s
  else s

/-- Left-pad a rendered non-negative number with zeros to width `w` (used by
the ISO-8601 rendering of `toISOString`). -/
def padNum (w : Nat) (n : Int) : String := jsPadLeft w (toString n)
where
  /-- Zero-pad a string to width `w`. -/
  jsPadLeft (w : Nat) (s : String) : String :=
    if s.length < w then String.mk (List.replicate (w - s.length) '0') ++ s
    else s

/-- Models `Date.prototype.toISOString` for dates in years 0–9999:
`YYYY-MM-DDTHH:mm:ss.sssZ` from the civil components. -/
def toISOString (dt : JsDate) : String :=
  padNum 4 dt.year ++ "-" ++ padNum 2 dt.month ++ "-" ++ padNum 2 dt.day ++
    "T" ++ padNum 2 (dt.msOfDay / 3600000) ++ ":" ++
    padNum 2 (dt.msOfDay % 3600000 / 60000) ++ ":" ++
    padNum 2 (dt.msOfDay % 60000 / 1000) ++ "." ++
    padNum 3 (dt.msOfDay % 1000) ++ "Z"

/-- Models `.replace(/[:.]/g, '-')`. -/
def replaceColonsDots (s : String) : String :=
  String.mk (s.data.map (fun c => if c = ':' || c = '.' then '-' else c))

/-- Models `.split('.')[0]`: the prefix before the first `.` (the whole
string when no `.` occurs). -/
def splitDotHead (s : String) : String :=
  String.mk (s.data.takeWhile (fun c => c ≠ '.'))

/-- Models `.replace(/\\/g, '/')`, the Windows-compatibility normalization
applied to produce `relativePath`. -/
def replaceBackslashes (s : String) : String :=
  String.mk (s.data.map (fun c => if c = '\\' then '/' else c))

/-- Suffix of `l` after its last `/` (the basename portion `path.extname`
scans). -/
def afterLastSlash (l : List Char) : List Char :=
  (l.reverse.takeWhile (fun c => c ≠ '/')).reverse

/-- Models Node's POSIX `path.extname`: the substring of the basename from
its last `.`, or `""` when the basename has no `.`, starts with its only
`.`, or is exactly `".."`. -/
def extname (s : String) : String :=
  let b := afterLastSlash s.data
  let revTail := b.reverse.takeWhile (fun c => c ≠ '.')
  if revTail.length = b.length then ""
  else
    let dotIdx := b.length - 1 - revTail.length
    if dotIdx = 0 then ""
    else if b = ['.', '.'] then ""
    else String.mk (b.drop dotIdx)

/-- Models `path.join` on POSIX for segments needing no normalization: the
components joined by `/`. -/
def pathJoin : List String → String
  | [] => ""
  | [s] => s
  | s :: rest => s ++ "/" ++ pathJoin rest

/-- `FileUploadManager.generateFilePath(uploadType, patientId,
originalFilename)`.  `now` is the `new Date()` the method captures, passed as
a civil date; `randomSuffix` is the value of
`Math.random().toString(36).substring(2, 10)` (an up-to-8-character base-36
token), passed as an input since randomness is not modelled.  Note that after
`.replace(/[:.]/g, '-')` the string contains no `.`, so `.split('.')[0]` is
the whole replaced ISO string, milliseconds and trailing `Z` included. -/
def generateFilePath (uploadType patientId originalFilename : String)
    (now : JsDate) (randomSuffix : String) : FilePathDescriptor :=
  let year := now.year
  let month := jsPadTwoZero (toString now.month)
  let timestamp := splitDotHead (replaceColonsDots (toISOString now))
  let ext := extname originalFilename
  let filename := uploadType ++ "_" ++ timestamp ++ "_" ++ randomSuffix ++ ext
  let directory :=
    pathJoin ["uploads", uploadType ++ "s", toString year, month,
      "patient_" ++ patientId]
  let fullPath := pathJoin [directory, filename]
  { fullPath := fullPath
    relativePath := replaceBackslashes fullPath
    filename := filename
    directory := directory }

/-! ### Supporting lemmas -/

/-- Calendar sanity: the epoch. -/
theorem daysFromCivil_epoch : daysFromCivil 1970 1 1 = 0 := by decide

/-- Calendar sanity: a leap day. -/
theorem daysFromCivil_leap : daysFromCivil 2024 2 29 = 19782 := by decide

/-- Day-of-month overflow rolls linearly into following months, as in
ECMAScript's `MakeDay`. -/
theorem daysFromCivil_linear_day (y m d n : Int) :
    daysFromCivil y m (d + n) = daysFromCivil y m d + n := by
  unfold daysFromCivil
  dsimp only
  omega

/-- `setDate(getDate() + n)` advances the instant by exactly `n` days. -/
theorem jsSetDateAdd_eq (dt : JsDate) (n : Int) :
    jsSetDateAdd dt n = dt.toMs + n * msPerDay := by
  unfold jsSetDateAdd JsDate.toMs
  rw [daysFromCivil_linear_day]
  ring

/-- The always-active test of the history path accepts only a subset of what
the filter path accepts (it lacks the `'ongoing'` alternative). -/
theorem continuousCheckHistoryPath_false (dur : Option String)
    (h : continuousCheckFilterPath dur = false) :
    continuousCheckHistoryPath dur = false := by
  cases dur with
  | none => rfl
  | some s =>
    simp only [continuousCheckFilterPath, Bool.and_eq_false_iff,
      Bool.or_eq_false_iff] at h
    simp only [continuousCheckHistoryPath, Bool.and_eq_false_iff,
      Bool.or_eq_false_iff]
    tauto

/-! ### C10 -/

/-- C10: when the underlying `getCurrentMedications` result is a failure
(`success: false`, modelled by `none`), `checkMedicationInteractions`
swallows it: it returns `success: true` with empty `interactions` and
`warnings` and no `medicationCount` field — the very same value it returns
for a successful result with zero active medications. -/
theorem checkInteractions_failure_swallowed :
    checkMedicationInteractions none =
      { success := true, interactions := [], warnings := [],
        medicationCount := none } ∧
    checkMedicationInteractions none = checkMedicationInteractions (some []) :=
  ⟨rfl, rfl⟩

/-! ### C5 -/

/-- C5: for a duration matched by the days pattern as `Days(n)` (and not
continuous), both activity paths are boundary-inclusive: at
`now = origination + n days` exactly they return true, and one second later
they return false. -/
theorem days_duration_boundary_inclusive (dur : Option String) (d : JsDate)
    (n : Nat) (hc : continuousCheckFilterPath dur = false)
    (hd : daysMatch dur = some n) :
    activeByDurationFilterPath dur d (d.toMs + n * msPerDay) = true ∧
    activeByDurationFilterPath dur d (d.toMs + n * msPerDay + 1000) = false ∧
    isMedicationActive dur d (d.toMs + n * msPerDay) = true ∧
    isMedicationActive dur d (d.toMs + n * msPerDay + 1000) = false := by
  have hch : continuousCheckHistoryPath dur = false :=
    continuousCheckHistoryPath_false dur hc
  have hms : msPerDay = 86400000 := rfl
  unfold activeByDurationFilterPath isMedicationActive
  rw [hc, hch, hd]
  simp only [Bool.false_eq_true, if_false, jsSetDateAdd_eq,
    decide_eq_true_eq, decide_eq_false_iff_not]
  omega

/-- C5 witness: a concrete 7-day prescription. -/
theorem days_duration_boundary_inclusive_witness :
    continuousCheckFilterPath (some "7 days") = false ∧
    daysMatch (some "7 days") = some 7 ∧
    (activeByDurationFilterPath (some "7 days") ⟨2024, 1, 31, 0⟩
        ((JsDate.mk 2024 1 31 0).toMs + 7 * msPerDay) = true ∧
      activeByDurationFilterPath (some "7 days") ⟨2024, 1, 31, 0⟩
        ((JsDate.mk 2024 1 31 0).toMs + 7 * msPerDay + 1000) = false ∧
      isMedicationActive (some "7 days") ⟨2024, 1, 31, 0⟩
        ((JsDate.mk 2024 1 31 0).toMs + 7 * msPerDay) = true ∧
      isMedicationActive (some "7 days") ⟨2024, 1, 31, 0⟩
        ((JsDate.mk 2024 1 31 0).toMs + 7 * msPerDay + 1000) = false) :=
  ⟨by decide, by decide,
    days_duration_boundary_inclusive (some "7 days") ⟨2024, 1, 31, 0⟩ 7
      (by decide) (by decide)⟩

/-! ### Fallback-window evaluation (shared) -/

/-- A duration that passes none of the checks is governed by the fallback
window: 90 days in the filter path, 30 days in the history path. -/
theorem fallbackWindows_eval (dur : Option String) (d : JsDate) (now : Int)
    (hc : continuousCheckFilterPath dur = false) (hd : daysMatch dur = none)
    (hw : weeksMatch dur = none) (hm : monthsMatch dur = none) :
    activeByDurationFilterPath dur d now =
      decide (now - d.toMs ≤ 90 * msPerDay) ∧
    isMedicationActive dur d now = decide (now - d.toMs ≤ 30 * msPerDay) := by
  have hch : continuousCheckHistoryPath dur = false :=
    continuousCheckHistoryPath_false dur hc
  unfold activeByDurationFilterPath isMedicationActive
  rw [hc, hch, hd, hw, hm]
  simp

/-! ### C4 -/

/-- C4: a duration that is absent or matches no pattern (`Unknown`) is judged
by days-since-origination against the fallback window, which is 90 days in
the `getCurrentMedications` filtering path and 30 days in the
`getMedicationHistory` stamping path. -/
theorem unknown_duration_fallback_windows (dur : Option String) (d : JsDate)
    (now : Int) (hc : continuousCheckFilterPath dur = false)
    (hd : daysMatch dur = none) (hw : weeksMatch dur = none)
    (hm : monthsMatch dur = none) :
    activeByDurationFilterPath dur d now =
      decide (now - d.toMs ≤ 90 * msPerDay) ∧
    isMedicationActive dur d now = decide (now - d.toMs ≤ 30 * msPerDay) :=
  fallbackWindows_eval dur d now hc hd hw hm

/-- C4 witness: a `null` duration is active at +89 days and inactive at +91
days under the 90-day filter-path window, and active at +29 days and inactive
at +31 days under the 30-day history-path window. -/
theorem unknown_duration_fallback_windows_witness :
    (continuousCheckFilterPath none = false ∧ daysMatch none = none ∧
      weeksMatch none = none ∧ monthsMatch none = none) ∧
    activeByDurationFilterPath none ⟨2024, 1, 31, 0⟩
      ((JsDate.mk 2024 1 31 0).toMs + 89 * msPerDay) = true ∧
    activeByDurationFilterPath none ⟨2024, 1, 31, 0⟩
      ((JsDate.mk 2024 1 31 0).toMs + 91 * msPerDay) = false ∧
    isMedicationActive none ⟨2024, 1, 31, 0⟩
      ((JsDate.mk 2024 1 31 0).toMs + 29 * msPerDay) = true ∧
    isMedicationActive none ⟨2024, 1, 31, 0⟩
      ((JsDate.mk 2024 1 31 0).toMs + 31 * msPerDay) = false :=
  ⟨⟨rfl, rfl, rfl, rfl⟩,
    ((unknown_duration_fallback_windows none ⟨2024, 1, 31, 0⟩ _
      rfl rfl rfl rfl).1).trans (by decide),
    ((unknown_duration_fallback_windows none ⟨2024, 1, 31, 0⟩ _
      rfl rfl rfl rfl).1).trans (by decide),
    ((unknown_duration_fallback_windows none ⟨2024, 1, 31, 0⟩ _
      rfl rfl rfl rfl).2).trans (by decide),
    ((unknown_duration_fallback_windows none ⟨2024, 1, 31, 0⟩ _
      rfl rfl rfl rfl).2).trans (by decide)⟩

/-! ### C1 -/

/-- C1 counterexample: the duration `"ongoing"` contains the token
`ongoing`, yet the history path (`isMedicationActive`) judges it inactive 60
days after origination, because that path's always-active test lacks the
`'ongoing'` alternative and the 30-day fallback applies. -/
theorem ongoing_inactive_in_history_path :
    jsIncludes (jsToLower "ongoing") "ongoing" = true ∧
    isMedicationActive (some "ongoing") ⟨2024, 1, 31, 0⟩
      ((JsDate.mk 2024 1 31 0).toMs + 60 * msPerDay) = false := by decide

/-- C1 (amended): durations containing `مستمر` or (case-insensitively)
`continuous` are always active in both paths, regardless of origination and
of `now`; durations containing `ongoing` (case-insensitively) are always
active in the `getCurrentMedications` filtering path only. -/
theorem continuous_tokens_always_active :
    (∀ (s : String) (d : JsDate) (now : Int),
      jsIncludes s "مستمر" = true ∨
          jsIncludes (jsToLower s) "continuous" = true →
        activeByDurationFilterPath (some s) d now = true ∧
          isMedicationActive (some s) d now = true) ∧
    (∀ (s : String) (d : JsDate) (now : Int),
      jsIncludes (jsToLower s) "ongoing" = true →
        activeByDurationFilterPath (some s) d now = true) := by
  constructor
  · intro s d now h
    have hs : s ≠ "" := by
      intro he
      rw [he] at h
      rcases h with h | h
      · exact absurd h (by decide)
      · exact absurd h (by decide)
    have hf : continuousCheckFilterPath (some s) = true := by
      simp only [continuousCheckFilterPath, Bool.and_eq_true,
        decide_eq_true_eq, Bool.or_eq_true]
      exact ⟨hs, by tauto⟩
    have hh : continuousCheckHistoryPath (some s) = true := by
      simp only [continuousCheckHistoryPath, Bool.and_eq_true,
        decide_eq_true_eq, Bool.or_eq_true]
      exact ⟨hs, by tauto⟩
    constructor
    · unfold activeByDurationFilterPath
      rw [hf]
      simp
    · unfold isMedicationActive
      rw [hh]
      simp
  · intro s d now h
    have hs : s ≠ "" := by
      intro he
      rw [he] at h
      exact absurd h (by decide)
    have hf : continuousCheckFilterPath (some s) = true := by
      simp only [continuousCheckFilterPath, Bool.and_eq_true,
        decide_eq_true_eq, Bool.or_eq_true]
      exact ⟨hs, by tauto⟩
    unfold activeByDurationFilterPath
    rw [hf]
    simp

/-- C1 witness: a concrete Arabic continuous duration is active in both
paths years after origination, and a concrete `"Ongoing"` duration is active
in the filtering path. -/
theorem continuous_tokens_always_active_witness :
    (jsIncludes "علاج مستمر" "مستمر" = true ∨
      jsIncludes (jsToLower "علاج مستمر") "continuous" = true) ∧
    activeByDurationFilterPath (some "علاج مستمر") ⟨2000, 1, 1, 0⟩
      (JsDate.mk 2024 1 1 0).toMs = true ∧
    isMedicationActive (some "علاج مستمر") ⟨2000, 1, 1, 0⟩
      (JsDate.mk 2024 1 1 0).toMs = true ∧
    jsIncludes (jsToLower "Ongoing") "ongoing" = true ∧
    activeByDurationFilterPath (some "Ongoing") ⟨2000, 1, 1, 0⟩
      (JsDate.mk 2024 1 1 0).toMs = true :=
  ⟨Or.inl (by decide),
    (continuous_tokens_always_active.1 "علاج مستمر" ⟨2000, 1, 1, 0⟩ _
      (Or.inl (by decide))).1,
    (continuous_tokens_always_active.1 "علاج مستمر" ⟨2000, 1, 1, 0⟩ _
      (Or.inl (by decide))).2,
    by decide,
    continuous_tokens_always_active.2 "Ongoing" ⟨2000, 1, 1, 0⟩ _ (by decide)⟩

/-! ### C2 -/

/-- C2 counterexample: the Arabic plural `"3 أسابيع"` is not matched by the
weeks pattern, whose Arabic alternative is the singular `أسبوع` (not a
substring of the plural), and the prescription is still active at
origination + 22 days in the `getCurrentMedications` path. -/
theorem weeks_plural_unmatched_active_at_22_days :
    weeksMatch (some "3 أسابيع") = none ∧
    activeByDurationFilterPath (some "3 أسابيع") ⟨2024, 1, 31, 0⟩
      ((JsDate.mk 2024 1 31 0).toMs + 22 * msPerDay) = true := by decide

/-- C2 (amended): `"3 أسابيع"` matches none of the duration patterns, so the
`getCurrentMedications` path judges it by the 90-day fallback window: the
prescription is active at origination + 20 days and also at + 22 days. -/
theorem weeks_plural_falls_to_fallback :
    (continuousCheckFilterPath (some "3 أسابيع") = false ∧
      daysMatch (some "3 أسابيع") = none ∧
      weeksMatch (some "3 أسابيع") = none ∧
      monthsMatch (some "3 أسابيع") = none) ∧
    (∀ (d : JsDate) (now : Int),
      activeByDurationFilterPath (some "3 أسابيع") d now =
        decide (now - d.toMs ≤ 90 * msPerDay)) ∧
    (∀ d : JsDate,
      activeByDurationFilterPath (some "3 أسابيع") d
          (d.toMs + 20 * msPerDay) = true ∧
        activeByDurationFilterPath (some "3 أسابيع") d
          (d.toMs + 22 * msPerDay) = true) := by
  refine ⟨⟨by decide, by decide, by decide, by decide⟩, ?_, ?_⟩
  · intro d now
    exact (fallbackWindows_eval (some "3 أسابيع") d now (by decide) (by decide)
      (by decide) (by decide)).1
  · intro d
    have h20 := (fallbackWindows_eval (some "3 أسابيع") d
      (d.toMs + 20 * msPerDay) (by decide) (by decide) (by decide)
      (by decide)).1
    have h22 := (fallbackWindows_eval (some "3 أسابيع") d
      (d.toMs + 22 * msPerDay) (by decide) (by decide) (by decide)
      (by decide)).1
    have hms : msPerDay = 86400000 := rfl
    constructor
    · rw [h20]
      simp only [decide_eq_true_eq]
      omega
    · rw [h22]
      simp only [decide_eq_true_eq]
      omega

/-! ### C3 -/

/-- C3 counterexample: a `"2 months"` prescription originated Jan 31 2024 is
still within two calendar months at +40 days (April boundary is Mar 31), yet
the history path (`isMedicationActive`) judges it inactive, because that path
has no months branch and its 30-day fallback applies. -/
theorem months_fallback_in_history_path :
    monthsMatch (some "2 months") = some 2 ∧
    jsSetMonthAdd ⟨2024, 1, 31, 0⟩ 2 = (JsDate.mk 2024 3 31 0).toMs ∧
    (JsDate.mk 2024 1 31 0).toMs + 40 * msPerDay ≤
      jsSetMonthAdd ⟨2024, 1, 31, 0⟩ 2 ∧
    isMedicationActive (some "2 months") ⟨2024, 1, 31, 0⟩
      ((JsDate.mk 2024 1 31 0).toMs + 40 * msPerDay) = false := by decide

/-- C3 (amended): a duration matched as `Months(n)` is judged active in the
`getCurrentMedications` filtering path iff `now` is at most the origination
advanced by `n` calendar months (`setMonth` arithmetic, not a 30-day
multiple); the `getMedicationHistory` stamping path has no months branch and
applies its 30-day fallback window instead. -/
theorem months_calendar_arithmetic_filter_path (dur : Option String)
    (d : JsDate) (now : Int) (n : Nat)
    (hc : continuousCheckFilterPath dur = false) (hd : daysMatch dur = none)
    (hw : weeksMatch dur = none) (hm : monthsMatch dur = some n) :
    activeByDurationFilterPath dur d now = decide (now ≤ jsSetMonthAdd d n) ∧
    isMedicationActive dur d now = decide (now - d.toMs ≤ 30 * msPerDay) := by
  have hch : continuousCheckHistoryPath dur = false :=
    continuousCheckHistoryPath_false dur hc
  unfold activeByDurationFilterPath isMedicationActive
  rw [hc, hch, hd, hw, hm]
  simp

/-- C3 witness: `"2 months"` from Jan 31 2024 in the filtering path is active
at the Mar 31 end instant (origination + 2 calendar months, time of day
preserved) and inactive one millisecond later — calendar arithmetic through a
leap February, not 60 days, while the history path
stamps it by the 30-day fallback. -/
theorem months_calendar_arithmetic_filter_path_witness :
    (continuousCheckFilterPath (some "2 months") = false ∧
      daysMatch (some "2 months") = none ∧
      weeksMatch (some "2 months") = none ∧
      monthsMatch (some "2 months") = some 2) ∧
    activeByDurationFilterPath (some "2 months") ⟨2024, 1, 31, 0⟩
      (JsDate.mk 2024 3 31 0).toMs = true ∧
    activeByDurationFilterPath (some "2 months") ⟨2024, 1, 31, 0⟩
      ((JsDate.mk 2024 3 31 0).toMs + 1) = false ∧
    isMedicationActive (some "2 months") ⟨2024, 1, 31, 0⟩
      (JsDate.mk 2024 3 31 0).toMs = false :=
  ⟨⟨by decide, by decide, by decide, by decide⟩,
    ((months_calendar_arithmetic_filter_path (some "2 months")
      ⟨2024, 1, 31, 0⟩ _ 2 (by decide) (by decide) (by decide)
      (by decide)).1).trans (by decide),
    ((months_calendar_arithmetic_filter_path (some "2 months")
      ⟨2024, 1, 31, 0⟩ _ 2 (by decide) (by decide) (by decide)
      (by decide)).1).trans (by decide),
    ((months_calendar_arithmetic_filter_path (some "2 months")
      ⟨2024, 1, 31, 0⟩ _ 2 (by decide) (by decide) (by decide)
      (by decide)).2).trans (by decide)⟩

/-! ### Duplicate-extraction lemmas -/

/-- The first index of a value is at most any index holding it. -/
theorem jsIndexOf_le (l : List String) (i : Nat) (h : i < l.length) :
    jsIndexOf l l[i] ≤ i := by
  induction l generalizing i with
  | nil => exact absurd h (by simp)
  | cons b t ih =>
    cases i with
    | zero => simp [jsIndexOf]
    | succ j =>
      have hj : j < t.length := Nat.lt_of_succ_lt_succ h
      simp only [List.getElem_cons_succ]
      by_cases hb : b = t[j]
      · simp [jsIndexOf, hb]
      · simp only [jsIndexOf, hb, if_false]
        exact Nat.succ_le_succ (ih j hj)

/-- For a member, the first index is in range. -/
theorem jsIndexOf_lt_length {l : List String} {a : String} (h : a ∈ l) :
    jsIndexOf l a < l.length := by
  induction l with
  | nil => simp at h
  | cons b t ih =>
    by_cases hb : b = a
    · simp [jsIndexOf, hb]
    · have ha : a ∈ t := by
        rcases List.mem_cons.mp h with h1 | h1
        · exact absurd h1.symm hb
        · exact h1
      simp only [jsIndexOf, hb, if_false, List.length_cons]
      exact Nat.succ_lt_succ (ih ha)

/-- The element at the first index of a member is that member. -/
theorem getElem?_jsIndexOf {l : List String} {a : String} (h : a ∈ l) :
    l[jsIndexOf l a]? = some a := by
  induction l with
  | nil => simp at h
  | cons b t ih =>
    by_cases hb : b = a
    · simp [jsIndexOf, hb]
    · have ha : a ∈ t := by
        rcases List.mem_cons.mp h with h1 | h1
        · exact absurd h1.symm hb
        · exact h1
      simp [jsIndexOf, hb, ih ha]

/-- On a duplicate-free list every occurrence sits at its first index. -/
theorem jsIndexOf_getElem_of_nodup {l : List String} (hn : l.Nodup) (i : Nat)
    (h : i < l.length) : jsIndexOf l l[i] = i := by
  have hmem : l[i] ∈ l := List.getElem_mem h
  have h1 : l[jsIndexOf l l[i]]? = some l[i] := getElem?_jsIndexOf hmem
  have h2 : l[i]? = some l[i] := List.getElem?_eq_getElem h
  exact List.getElem?_inj (jsIndexOf_lt_length hmem) hn (h1.trans h2.symm)

/-- A pair of distinct positions carrying equal values makes the duplicate
extraction non-empty (the later position is kept by the filter). -/
theorem duplicatesOf_ne_nil (l : List String) (i j : Nat) (hi : i < l.length)
    (hj : j < l.length) (hij : i < j) (heq : l[i] = l[j]) :
    duplicatesOf l ≠ [] := by
  have hle : jsIndexOf l l[j] ≤ i := heq ▸ jsIndexOf_le l i hi
  have hne : jsIndexOf l l[j] ≠ j := Nat.ne_of_lt (Nat.lt_of_le_of_lt hle hij)
  have hmem : ((j, l[j]) : Nat × String) ∈ l.enum :=
    List.mk_mem_enum_iff_getElem?.mpr (List.getElem?_eq_getElem hj)
  have hkeep : ((j, l[j]) : Nat × String) ∈
      l.enum.filter (fun p => jsIndexOf l p.2 != p.1) :=
    List.mem_filter.mpr ⟨hmem, by simpa using hne⟩
  intro hnil
  have : l[j] ∈ duplicatesOf l := List.mem_map.mpr ⟨(j, l[j]), hkeep, rfl⟩
  rw [hnil] at this
  simp at this

/-- The duplicate extraction is empty exactly when the (lower-cased) name
list is duplicate-free. -/
theorem duplicatesOf_eq_nil_iff (l : List String) :
    duplicatesOf l = [] ↔ l.Nodup := by
  constructor
  · intro hnil
    by_contra hn
    rw [List.nodup_iff_injective_get] at hn
    obtain ⟨i, j, hget, hne⟩ := Function.not_injective_iff.mp hn
    have hget2 : l[i.val] = l[j.val] := by
      simpa [List.get_eq_getElem] using hget
    rcases Nat.lt_or_ge i.val j.val with hlt | hge
    · exact duplicatesOf_ne_nil l i.val j.val i.isLt j.isLt hlt hget2 hnil
    · have hlt : j.val < i.val :=
        Nat.lt_of_le_of_ne hge (fun he => hne (Fin.ext he.symm))
      exact duplicatesOf_ne_nil l j.val i.val j.isLt i.isLt hlt hget2.symm hnil
  · intro hn
    unfold duplicatesOf
    rw [List.map_eq_nil_iff]
    rw [List.filter_eq_nil_iff]
    intro p hp
    have hp2 := List.mem_enum_iff_getElem?.mp hp
    have hlen : p.1 < l.length := by
      by_contra hge
      rw [List.getElem?_eq_none (Nat.le_of_not_lt hge)] at hp2
      exact Option.noConfusion hp2
    have hval : l[p.1] = p.2 := by
      rw [List.getElem?_eq_getElem hlen] at hp2
      exact Option.some.inj hp2
    have := jsIndexOf_getElem_of_nodup hn p.1 hlen
    rw [hval] at this
    simp [this]

/-! ### Warning-list normal form -/

/-- For a non-empty active list the warnings are the duplicate warning (when
duplicates exist) followed by the polypharmacy warning (when the count
reaches 5). -/
theorem warnings_eq (meds : List MedicationRecord) (h : meds ≠ []) :
    (checkMedicationInteractions (some meds)).warnings =
      (if duplicatesOf (meds.map fun m => jsToLower m.medicationName) = []
        then []
        else
          [duplicateWarning
            (duplicatesOf (meds.map fun m => jsToLower m.medicationName))]) ++
      (if 5 ≤ meds.length then [polypharmacyWarning meds.length] else []) := by
  unfold checkMedicationInteractions
  dsimp only
  have hne : meds.isEmpty = false := by
    simp [List.isEmpty_iff, h]
  rw [hne]
  simp only [Bool.false_eq_true, if_false]
  by_cases hd : duplicatesOf (meds.map fun m => jsToLower m.medicationName) = []
  · have hde : (duplicatesOf (meds.map fun m => jsToLower m.medicationName)).isEmpty
        = true := by simp [List.isEmpty_iff, hd]
    rw [hde, if_pos hd]
    by_cases hp : 5 ≤ meds.length
    · simp [hp]
    · simp [hp]
  · have hde : (duplicatesOf (meds.map fun m => jsToLower m.medicationName)).isEmpty
        = false := by simp [List.isEmpty_iff, hd]
    rw [hde, if_neg hd]
    by_cases hp : 5 ≤ meds.length
    · simp [hp]
    · simp [hp]

/-! ### C6 -/

/-- C6: `checkMedicationInteractions` emits exactly one `DUPLICATE` warning
(severity medium, listing the duplicated lower-cased names) iff some
medication name occurs more than once case-insensitively among the active
medications; on `["Aspirin", "aspirin", "Metformin"]` the sole warning names
the duplicate `"aspirin"`. -/
theorem duplicate_rule (meds : List MedicationRecord) :
    ((checkMedicationInteractions (some meds)).warnings.filter
        (fun w => w.type == "DUPLICATE") =
      if (meds.map fun m => jsToLower m.medicationName).Nodup then []
      else
        [duplicateWarning
          (duplicatesOf (meds.map fun m => jsToLower m.medicationName))]) ∧
    (checkMedicationInteractions
        (some [namedMed "Aspirin", namedMed "aspirin",
          namedMed "Metformin"])).warnings =
      [duplicateWarning ["aspirin"]] := by
  refine ⟨?_, by decide⟩
  rcases hm : meds with _ | ⟨m, ms⟩
  · simp [checkMedicationInteractions, duplicatesOf]
  · rw [warnings_eq (m :: ms) (List.cons_ne_nil m ms), List.filter_append]
    by_cases hd : duplicatesOf ((m :: ms).map fun x => jsToLower x.medicationName) = []
    · rw [if_pos hd, if_pos ((duplicatesOf_eq_nil_iff _).mp hd)]
      by_cases hp : 5 ≤ (m :: ms).length
      · rw [if_pos hp]
        simp [polypharmacyWarning]
      · rw [if_neg hp]
        simp
    · rw [if_neg hd, if_neg (fun hh => hd ((duplicatesOf_eq_nil_iff _).mpr hh))]
      by_cases hp : 5 ≤ (m :: ms).length
      · rw [if_pos hp]
        simp [duplicateWarning, polypharmacyWarning]
      · rw [if_neg hp]
        simp [duplicateWarning]

/-! ### C7 -/

/-- C7: `checkMedicationInteractions` emits exactly one `POLYPHARMACY`
warning (severity low, count embedded) iff there are at least 5 active
medications; 5 distinct active medications yield exactly that warning and 4
yield none. -/
theorem polypharmacy_rule (meds : List MedicationRecord) :
    ((checkMedicationInteractions (some meds)).warnings.filter
        (fun w => w.type == "POLYPHARMACY") =
      if 5 ≤ meds.length then [polypharmacyWarning meds.length] else []) ∧
    (checkMedicationInteractions
        (some [namedMed "A", namedMed "B", namedMed "C", namedMed "D",
          namedMed "E"])).warnings = [polypharmacyWarning 5] ∧
    (checkMedicationInteractions
        (some [namedMed "A", namedMed "B", namedMed "C",
          namedMed "D"])).warnings = [] := by
  refine ⟨?_, by decide, by decide⟩
  rcases hm : meds with _ | ⟨m, ms⟩
  · simp [checkMedicationInteractions]
  · rw [warnings_eq (m :: ms) (List.cons_ne_nil m ms), List.filter_append]
    by_cases hd : duplicatesOf ((m :: ms).map fun x => jsToLower x.medicationName) = []
    · rw [if_pos hd]
      by_cases hp : 5 ≤ (m :: ms).length
      · rw [if_pos hp]
        simp [polypharmacyWarning]
      · rw [if_neg hp]
        simp
    · rw [if_neg hd]
      by_cases hp : 5 ≤ (m :: ms).length
      · rw [if_pos hp]
        simp [duplicateWarning, polypharmacyWarning]
      · rw [if_neg hp]
        simp [duplicateWarning]

/-! ### C8 -/

/-- The backslash normalization leaves no backslash behind. -/
theorem replaceBackslashes_no_backslash (s : String) :
    ((replaceBackslashes s).data.all (fun c => c != '\\')) = true := by
  unfold replaceBackslashes
  rw [List.all_eq_true]
  intro c hc
  rcases List.mem_map.mp hc with ⟨x, hx, rfl⟩
  by_cases h : x = '\\'
  · simp [h]
  · simp [h]

/-- C8: for every upload type, owner id, original filename, capture time and
random token, `generateFilePath` produces the directory
`uploads/<uploadType>s/<year>/<two-digit month>/patient_<ownerId>`, the
filename `<uploadType>_<timestamp>_<token><extension>` with the extension of
the original filename appended verbatim (empty when there is none), and a
`relativePath` without backslashes. -/
theorem generateFilePath_shape (uploadType patientId originalFilename : String)
    (now : JsDate) (suffix : String) (h1 : 1 ≤ now.month)
    (h2 : now.month ≤ 12) :
    (generateFilePath uploadType patientId originalFilename now
        suffix).directory =
      "uploads" ++ "/" ++ (uploadType ++ "s") ++ "/" ++ toString now.year ++
        "/" ++ jsPadTwoZero (toString now.month) ++ "/" ++
        ("patient_" ++ patientId) ∧
    (jsPadTwoZero (toString now.month)).length = 2 ∧
    (generateFilePath uploadType patientId originalFilename now
        suffix).filename =
      uploadType ++ "_" ++ splitDotHead (replaceColonsDots (toISOString now))
        ++ "_" ++ suffix ++ extname originalFilename ∧
    ((generateFilePath uploadType patientId originalFilename now
        suffix).relativePath.data.all (fun c => c != '\\')) = true := by
  refine ⟨?_, ?_, ?_, ?_⟩
  · simp [generateFilePath, pathJoin, String.append_assoc]
  · have hm : now.month = 1 ∨ now.month = 2 ∨ now.month = 3 ∨
        now.month = 4 ∨ now.month = 5 ∨ now.month = 6 ∨ now.month = 7 ∨
        now.month = 8 ∨ now.month = 9 ∨ now.month = 10 ∨ now.month = 11 ∨
        now.month = 12 := by omega
    rcases hm with h | h | h | h | h | h | h | h | h | h | h | h <;>
      rw [h] <;> decide
  · simp [generateFilePath, String.append_assoc]
  · exact replaceBackslashes_no_backslash _

/-- C8 witness: the spec's example, with an 8-character token, a `.jpg`
extension preserved, and an extensionless name producing no extension. -/
theorem generateFilePath_shape_witness :
    (1 ≤ (JsDate.mk 2024 1 20 (((10 * 60 + 30) * 60 + 45) * 1000 + 123)).month ∧
      (JsDate.mk 2024 1 20 (((10 * 60 + 30) * 60 + 45) * 1000 + 123)).month ≤ 12) ∧
    (generateFilePath "visit" "12345678901" "scan.jpg"
        ⟨2024, 1, 20, ((10 * 60 + 30) * 60 + 45) * 1000 + 123⟩
        "abc12345").directory = "uploads/visits/2024/01/patient_12345678901" ∧
    (generateFilePath "visit" "12345678901" "scan.jpg"
        ⟨2024, 1, 20, ((10 * 60 + 30) * 60 + 45) * 1000 + 123⟩
        "abc12345").filename =
      "visit_2024-01-20T10-30-45-123Z_abc12345.jpg" ∧
    ("abc12345" : String).length = 8 ∧
    extname "scan.jpg" = ".jpg" ∧ extname "README" = "" ∧
    ((generateFilePath "visit" "12345678901" "scan.jpg"
        ⟨2024, 1, 20, ((10 * 60 + 30) * 60 + 45) * 1000 + 123⟩
        "abc12345").relativePath.data.all (fun c => c != '\\')) = true :=
  ⟨⟨by decide, by decide⟩,
    ((generateFilePath_shape "visit" "12345678901" "scan.jpg"
      ⟨2024, 1, 20, ((10 * 60 + 30) * 60 + 45) * 1000 + 123⟩ "abc12345"
      (by decide) (by decide)).1).trans (by decide),
    ((generateFilePath_shape "visit" "12345678901" "scan.jpg"
      ⟨2024, 1, 20, ((10 * 60 + 30) * 60 + 45) * 1000 + 123⟩ "abc12345"
      (by decide) (by decide)).2.2.1).trans (by decide),
    by decide, by decide, by decide,
    (generateFilePath_shape "visit" "12345678901" "scan.jpg"
      ⟨2024, 1, 20, ((10 * 60 + 30) * 60 + 45) * 1000 + 123⟩ "abc12345"
      (by decide) (by decide)).2.2.2⟩

/-! ### C9 -/

/-- Records produced per visit all carry that visit's date, so flattening a
date-descending visit list gives a date-descending record list. -/
theorem pairwise_dates_flatMap {α : Type} (dateOf : α → Int)
    (f : Visit → List α) (hf : ∀ v x, x ∈ f v → dateOf x = v.visitDate.toMs)
    (visits : List Visit)
    (h : visits.Pairwise (fun a b => b.visitDate.toMs ≤ a.visitDate.toMs)) :
    ((visits.flatMap f).map dateOf).Pairwise (fun a b => b ≤ a) := by
  induction visits with
  | nil => simp
  | cons v vs ih =>
    rw [List.flatMap_cons, List.map_append, List.pairwise_append]
    refine ⟨?_, ih (List.pairwise_cons.mp h).2, ?_⟩
    · apply List.pairwise_of_forall_mem_list
      intro a ha b hb
      rcases List.mem_map.mp ha with ⟨x, hx, rfl⟩
      rcases List.mem_map.mp hb with ⟨y, hy, rfl⟩
      rw [hf v x hx, hf v y hy]
    · intro a ha b hb
      rcases List.mem_map.mp ha with ⟨x, hx, rfl⟩
      rcases List.mem_map.mp hb with ⟨y, hy, rfl⟩
      rcases List.mem_flatMap.mp hy with ⟨w, hw, hyw⟩
      rw [hf v x hx, hf w y hyw]
      exact (List.pairwise_cons.mp h).1 w hw

/-- Pointwise sublists flatten to a sublist. -/
theorem flatMap_sublist {α : Type} (f g : Visit → List α)
    (h : ∀ v, List.Sublist (f v) (g v)) (visits : List Visit) :
    List.Sublist (visits.flatMap f) (visits.flatMap g) := by
  induction visits with
  | nil => simp
  | cons v vs ih =>
    rw [List.flatMap_cons, List.flatMap_cons]
    exact (h v).append ih

/-- C9: on a visit list sorted by date descending, both aggregator outputs
list records in descending visit-date order and are order-preserving
selections (sublists) of the per-visit, per-prescription flattening — i.e.
grouped by most-recent-visit-first with source prescription order kept. -/
theorem aggregator_ordering (visits : List Visit) (q : Option String)
    (now : Int)
    (h : visits.Pairwise (fun a b => b.visitDate.toMs ≤ a.visitDate.toMs)) :
    ((getCurrentMedicationsCore visits now).map
      (fun m => m.visitDate.toMs)).Pairwise (fun a b => b ≤ a) ∧
    List.Sublist (getCurrentMedicationsCore visits now)
      (collectAllMedications visits) ∧
    ((getMedicationHistoryCore visits q now).map
      (fun m => m.visitDate.toMs)).Pairwise (fun a b => b ≤ a) ∧
    List.Sublist (getMedicationHistoryCore visits q now)
      (visits.flatMap (fun v => v.prescribedMedications.map (fun med =>
        ({ toMedicationRecord := enrich v med
           isActive := isMedicationActive med.duration v.visitDate now }
          : HistoryRecord)))) := by
  have hall : ((collectAllMedications visits).map
      (fun m => m.visitDate.toMs)).Pairwise (fun a b => b ≤ a) := by
    apply pairwise_dates_flatMap (fun m : MedicationRecord => m.visitDate.toMs)
      (fun v => v.prescribedMedications.map (enrich v)) ?_ visits h
    intro v x hx
    rcases List.mem_map.mp hx with ⟨med, _, rfl⟩
    rfl
  refine ⟨?_, ?_, ?_, ?_⟩
  · exact hall.sublist ((List.filter_sublist _).map _)
  · exact List.filter_sublist _
  · apply pairwise_dates_flatMap (fun m : HistoryRecord => m.visitDate.toMs)
      (fun v => (v.prescribedMedications.filter (historyNameFilter q)).map
        (fun med =>
          { toMedicationRecord := enrich v med
            isActive := isMedicationActive med.duration v.visitDate now }))
      ?_ visits h
    intro v x hx
    rcases List.mem_map.mp hx with ⟨med, _, rfl⟩
    rfl
  · apply flatMap_sublist
    intro v
    exact (List.filter_sublist _).map _

/-- C9 witness: two visits in descending date order. -/
theorem aggregator_ordering_witness :
    ([(⟨1, ⟨2024, 2, 1, 0⟩, none,
        [⟨"Aspirin", "1x", some "مستمر", none⟩, ⟨"B", "", none, none⟩]⟩ : Visit),
      ⟨2, ⟨2024, 1, 1, 0⟩, none, [⟨"C", "", some "5 days", none⟩]⟩].Pairwise
      (fun a b => b.visitDate.toMs ≤ a.visitDate.toMs)) ∧
    (((getCurrentMedicationsCore
        [⟨1, ⟨2024, 2, 1, 0⟩, none,
          [⟨"Aspirin", "1x", some "مستمر", none⟩, ⟨"B", "", none, none⟩]⟩,
         ⟨2, ⟨2024, 1, 1, 0⟩, none, [⟨"C", "", some "5 days", none⟩]⟩]
        (JsDate.mk 2024 6 1 0).toMs).map
      (fun m => m.visitDate.toMs)).Pairwise (fun a b => b ≤ a)) :=
  ⟨by decide,
    (aggregator_ordering
      [⟨1, ⟨2024, 2, 1, 0⟩, none,
        [⟨"Aspirin", "1x", some "مستمر", none⟩, ⟨"B", "", none, none⟩]⟩,
       ⟨2, ⟨2024, 1, 1, 0⟩, none, [⟨"C", "", some "5 days", none⟩]⟩]
      none (JsDate.mk 2024 6 1 0).toMs (by decide)).1⟩
